import Mathlib

/-!
Shallow embedding of the DeepAvatar real-time frame pipeline
(`server/app.py`, `server/server_utils/face_detector.py`,
`server/server_utils/logger.py`, `server/server_utils/preprocessor.py`).

Modelling conventions:
- Timestamps and millisecond durations are rationals (`ℚ`); the Python code
  uses floats, but every claim here involves only exactly representable values
  and exact arithmetic, so `ℚ` is a faithful model.
- External collaborators (the MTCNN detector network, the 3DDFA model, the
  base64/PIL/cv2 codecs, psutil sampling) are opaque: their results are passed
  in as explicit arguments (oracles), exactly as the spec's §1 scopes them out.
- A decoded frame is represented by its dimensions (`height, width = frame.shape[:2]`),
  which is all the control logic reads from it.
- Python exceptions cannot arise inside the modelled fragments because every
  fallible external call is already an `Option`-valued oracle; the `try/except`
  wrappers in the source are therefore dead branches in the model.
-/

namespace DeepAvatar

/-- Bounding box `(x1, y1, x2, y2)` of integer pixel coordinates, as produced
by `boxes[0].astype(int)` in `face_detector.py`. -/
structure BBox where
  x1 : Int
  y1 : Int
  x2 : Int
  y2 : Int
deriving Repr, DecidableEq

/-- Dimensions of a decoded frame: `h, w = frame.shape[:2]`. -/
structure FrameDims where
  w : Nat
  h : Nat
deriving Repr, DecidableEq

/-! ## Face detector (`server_utils/face_detector.py`) -/

/-- Mutable state of `FaceDetector`: the confidence threshold fixed at
construction plus the tracking fields `last_bbox`, `tracking_active`,
`frames_since_detection`. -/
structure FaceDetectorState where
  min_confidence : ℚ
  last_bbox : Option BBox
  tracking_active : Bool
  frames_since_detection : Nat
deriving Repr, DecidableEq

/-- Constructor state of `FaceDetector.__init__`: no box, tracking inactive,
counter zero. -/
def FaceDetectorState.init (min_confidence : ℚ) : FaceDetectorState :=
  { min_confidence := min_confidence
    last_bbox := none
    tracking_active := false
    frames_since_detection := 0 }

/-- Clamping step of `_detect_with_mtcnn`:
`x = max(0, min(x, w - 1))`, `y = max(0, min(y, h - 1))` on each coordinate. -/
def clampBBox (b : BBox) (w h : Nat) : BBox :=
  { x1 := max 0 (min b.x1 ((w : Int) - 1))
    y1 := max 0 (min b.y1 ((h : Int) - 1))
    x2 := max 0 (min b.x2 ((w : Int) - 1))
    y2 := max 0 (min b.y2 ((h : Int) - 1)) }

/-- `_detect_with_mtcnn`: the MTCNN network itself is an external collaborator,
so its output (the best box and its probability, or nothing) is the oracle
`raw`. A detected box is kept when `probs[0] >= self.min_confidence`, clamped
into the frame, and returned; otherwise the result is `None`. Exceptions in
the detector also yield `None` (`raw = none` covers that branch). -/
def detect_with_mtcnn (min_confidence : ℚ) (raw : Option (BBox × ℚ)) (w h : Nat) :
    Option BBox :=
  match raw with
  | none => none
  | some (b, p) => if min_confidence ≤ p then some (clampBBox b w h) else none

/-- `_track_face`: returns the stored box unchanged provided it still lies
within the current frame bounds (`x2 > w or y2 > h or x1 < 0 or y1 < 0`
invalidates it), `None` otherwise. -/
def track_face (s : FaceDetectorState) (w h : Nat) : Option BBox :=
  match s.last_bbox with
  | none => none
  | some b =>
      if b.x2 > (w : Int) ∨ b.y2 > (h : Int) ∨ b.x1 < 0 ∨ b.y1 < 0 then none
      else some b

/-- Tail of `detect_face`: run full detection; on success store the box, set
`tracking_active`, zero the staleness counter; on failure only clear
`tracking_active` (the stored box and counter are left as they were). -/
def detect_full (s : FaceDetectorState) (w h : Nat) (raw : Option (BBox × ℚ)) :
    Option BBox × FaceDetectorState :=
  match detect_with_mtcnn s.min_confidence raw w h with
  | some bb =>
      (some bb,
       { s with last_bbox := some bb, tracking_active := true, frames_since_detection := 0 })
  | none => (none, { s with tracking_active := false })

/-- `detect_face`: when tracking is enabled, active, and a box is stored, try
tracked reuse first; a successful reuse increments `frames_since_detection`
and returns without touching the detector. Otherwise fall through to full
detection. -/
def detect_face (s : FaceDetectorState) (w h : Nat) (use_tracking : Bool)
    (raw : Option (BBox × ℚ)) : Option BBox × FaceDetectorState :=
  if use_tracking && s.tracking_active && s.last_bbox.isSome then
    match track_face s w h with
    | some bb => (some bb, { s with frames_since_detection := s.frames_since_detection + 1 })
    | none => detect_full s w h raw
  else detect_full s w h raw

/-- `should_redetect`: true iff `frames_since_detection >= redetect_interval`. -/
def should_redetect (s : FaceDetectorState) (redetect_interval : Nat) : Bool :=
  decide (redetect_interval ≤ s.frames_since_detection)

/-- `reset_tracking`: clear the stored box, deactivate tracking, zero the
counter. -/
def reset_tracking (s : FaceDetectorState) : FaceDetectorState :=
  { s with last_bbox := none, tracking_active := false, frames_since_detection := 0 }

/-! ## Performance logger (`server_utils/logger.py`) -/

/-- Mean of a list of rationals (`np.mean`); only applied to nonempty lists by
the source. -/
def mean (xs : List ℚ) : ℚ :=
  xs.sum / (xs.length : ℚ)

/-- Minimum of a list (`np.min`); only applied to nonempty lists by the
source, `0` on `[]` is an arbitrary total-function default. -/
def list_min : List ℚ → ℚ
  | [] => 0
  | x :: xs => xs.foldl min x

/-- Maximum of a list (`np.max`). -/
def list_max : List ℚ → ℚ
  | [] => 0
  | x :: xs => xs.foldl max x

/-- Python `round(x, k)`: round to `k` decimal places, ties to even
(banker's rounding), modelled exactly over `ℚ`. -/
def round_half_even (q : ℚ) : Int :=
  if q - ⌊q⌋ < (1 : ℚ) / 2 then ⌊q⌋
  else if (1 : ℚ) / 2 < q - ⌊q⌋ then ⌊q⌋ + 1
  else if ⌊q⌋ % 2 = 0 then ⌊q⌋ else ⌊q⌋ + 1

/-- Round a rational to `k` decimal places as Python `round(q, k)` does. -/
def round_to (q : ℚ) (k : Nat) : ℚ :=
  (round_half_even (q * 10 ^ k) : ℚ) / 10 ^ k

/-- Append to a `collections.deque(maxlen=maxlen)`: push on the right and
evict from the left once the length exceeds `maxlen`. -/
def dequeAppend (maxlen : Nat) (xs : List ℚ) (x : ℚ) : List ℚ :=
  let ys := xs ++ [x]
  if maxlen < ys.length then ys.drop (ys.length - maxlen) else ys

/-- State of `PerformanceLogger`. `last_log_time` and the periodic
`_log_metrics` console output are a pure logging side effect (they feed
nothing the pipeline reads) and are not modelled. -/
structure PerformanceLogger where
  window_size : Nat
  log_interval : Nat
  frame_times : List ℚ
  processing_times : List ℚ
  frame_count : Nat
  dropped_frames : Nat
  start_time : Option ℚ
  last_frame_time : ℚ
deriving Repr, DecidableEq

/-- Constructor state of `PerformanceLogger.__init__` at wall-clock time
`now` (`last_frame_time = time.time()`). -/
def PerformanceLogger.init (window_size log_interval : Nat) (now : ℚ) :
    PerformanceLogger :=
  { window_size := window_size
    log_interval := log_interval
    frame_times := []
    processing_times := []
    frame_count := 0
    dropped_frames := 0
    start_time := none
    last_frame_time := now }

/-- `start_frame`: record the wall-clock start of frame processing. -/
def start_frame (s : PerformanceLogger) (now : ℚ) : PerformanceLogger :=
  { s with start_time := some now }

/-- `end_frame(success)` at wall-clock time `now`: an early return when no
`start_frame` is pending; otherwise append a sample (success) or bump the
dropped counter (failure), then update `last_frame_time` and clear
`start_time`. Durations are in milliseconds (`* 1000`). -/
def end_frame (s : PerformanceLogger) (now : ℚ) (success : Bool) :
    PerformanceLogger :=
  match s.start_time with
  | none => s
  | some st =>
      let processing_time := (now - st) * 1000
      let frame_interval := (now - s.last_frame_time) * 1000
      let s1 :=
        if success then
          { s with
            processing_times := dequeAppend s.window_size s.processing_times processing_time
            frame_times := dequeAppend s.window_size s.frame_times frame_interval
            frame_count := s.frame_count + 1 }
        else
          { s with dropped_frames := s.dropped_frames + 1 }
      { s1 with last_frame_time := now, start_time := none }

/-- Snapshot returned by `get_current_metrics`. -/
structure Metrics where
  fps : ℚ
  avg_latency : ℚ
  min_latency : ℚ
  max_latency : ℚ
  dropped_frames : Nat
  cpu_percent : ℚ
  memory_percent : ℚ
deriving Repr, DecidableEq

/-- `get_current_metrics`: on an empty window every fps/latency field is zero
(and `dropped_frames` reports the cumulative counter as-is); otherwise
`fps = 1000 / mean(frame_times)` and latency aggregates over
`processing_times`, each rounded as in the source. `cpu` and `mem` are the
opaque psutil samples taken at snapshot time. -/
def get_current_metrics (s : PerformanceLogger) (cpu mem : ℚ) : Metrics :=
  if s.processing_times.length = 0 then
    { fps := 0
      avg_latency := 0
      min_latency := 0
      max_latency := 0
      dropped_frames := s.dropped_frames
      cpu_percent := 0
      memory_percent := 0 }
  else
    let avg_fps := if 0 < s.frame_times.length then 1000 / mean s.frame_times else 0
    { fps := round_to avg_fps 2
      avg_latency := round_to (mean s.processing_times) 1
      min_latency := round_to (list_min s.processing_times) 1
      max_latency := round_to (list_max s.processing_times) 1
      dropped_frames := s.dropped_frames
      cpu_percent := round_to cpu 1
      memory_percent := round_to mem 1 }

/-- `PerformanceLogger.reset` at wall-clock time `now`: clear both windows and
the counters; `start_time` is untouched by the source. -/
def PerformanceLogger.reset (s : PerformanceLogger) (now : ℚ) :
    PerformanceLogger :=
  { s with
    frame_times := []
    processing_times := []
    frame_count := 0
    dropped_frames := 0
    last_frame_time := now }

/-! ## Server application (`app.py`) -/

/-- The slice of `config.yaml` the frame pipeline reads. -/
structure Config where
  frame_skip : Nat
  enable_tracking : Bool
  redetect_interval : Nat
  thread_pool_size : Nat
deriving Repr, DecidableEq

/-- Inbound `frame` event payload as `handle_frame` discriminates it. The
base64/PIL and cv2 codecs are external, so a decodable payload carries the
frame its decode would produce (`none` = decode failure). `dictNoImage` and
`otherType` are payloads failing the `isinstance` checks. -/
inductive FrameData where
  | dictWithImage (decoded : Option FrameDims)
  | dictNoImage
  | bytesBuf (decoded : Option FrameDims)
  | otherType
deriving Repr, DecidableEq

/-- Outbound Socket.IO events emitted by the frame path. -/
inductive Event where
  | errorEvt (msg : String)
  | no_face
  | mesh_update
deriving Repr, DecidableEq

/-- Server-side mutable state touched by the frame path: the global
`frame_counter`, the shared logger and detector, and the queue of tasks
submitted to the `ThreadPoolExecutor` and not yet completed.
`ThreadPoolExecutor.submit` enqueues unconditionally (its work queue is
unbounded); `max_workers` bounds how many queued tasks execute in parallel,
not how many are admitted. The module-level `processing_lock` is declared in
the source but never acquired, so it has no state here. -/
structure ServerState where
  frame_counter : Nat
  logger : PerformanceLogger
  detector : FaceDetectorState
  pool_queue : List FrameDims
deriving Repr, DecidableEq

/-- Skip test of `handle_frame`: `frame_counter % frame_skip != 0`. -/
def frameSkipped (frame_skip frame_counter : Nat) : Bool :=
  frame_counter % frame_skip != 0

/-- Decoded frame carried by a payload, when its branch decodes one. -/
def payload_frame : FrameData → Option FrameDims
  | .dictWithImage d => d
  | .bytesBuf d => d
  | _ => none

/-- `handle_frame(data)` at start wall-clock `t1` and (for the synchronous
failure paths) end wall-clock `t2`: start the performance measurement, bump
the global counter, drop non-admitted frames as failed samples, decode, and
submit decoded frames to the thread pool. Returns the new server state and
the events emitted synchronously by the handler. The wrong-format branch
only logs to the console (no outbound event); a decode failure additionally
emits an `error` event. A submitted frame leaves `start_time` pending for the
worker's own `end_frame`. -/
def handle_frame (cfg : Config) (s : ServerState) (data : FrameData)
    (t1 t2 : ℚ) : ServerState × List Event :=
  let log1 := start_frame s.logger t1
  let counter := s.frame_counter + 1
  if frameSkipped cfg.frame_skip counter then
    ({ s with frame_counter := counter, logger := end_frame log1 t2 false }, [])
  else
    match data with
    | .dictWithImage d =>
        match d with
        | none =>
            ({ s with frame_counter := counter, logger := end_frame log1 t2 false },
             [Event.errorEvt "Failed to decode frame"])
        | some f =>
            ({ s with
                frame_counter := counter
                logger := log1
                pool_queue := s.pool_queue ++ [f] }, [])
    | .bytesBuf d =>
        match d with
        | none =>
            ({ s with frame_counter := counter, logger := end_frame log1 t2 false },
             [Event.errorEvt "Failed to decode frame"])
        | some f =>
            ({ s with
                frame_counter := counter
                logger := log1
                pool_queue := s.pool_queue ++ [f] }, [])
    | _ =>
        ({ s with frame_counter := counter, logger := end_frame log1 t2 false }, [])

/-- `process_frame(frame)` run by a worker to complete the oldest pending
task, at completion wall-clock `t`. Oracles: `raw` is the MTCNN result for
this frame, `roi_ok` whether `extract_face_roi` yields a nonempty crop, and
`mesh_ok` whether `face_model.predict` succeeds. Forced redetection resets
tracking when `enable_tracking` and the staleness counter reached the
configured interval. (The write to the vestigial global `last_face_bbox`,
read by nothing, is not modelled.) -/
def process_frame (cfg : Config) (s : ServerState) (frame : FrameDims)
    (raw : Option (BBox × ℚ)) (roi_ok mesh_ok : Bool) (t : ℚ) :
    ServerState × List Event :=
  let det0 :=
    if cfg.enable_tracking && should_redetect s.detector cfg.redetect_interval then
      reset_tracking s.detector
    else s.detector
  match detect_face det0 frame.w frame.h cfg.enable_tracking raw with
  | (none, det1) =>
      ({ s with
          detector := det1
          pool_queue := s.pool_queue.tail
          logger := end_frame s.logger t false }, [Event.no_face])
  | (some _, det1) =>
      if roi_ok = false then
        ({ s with
            detector := det1
            pool_queue := s.pool_queue.tail
            logger := end_frame s.logger t false }, [Event.no_face])
      else if mesh_ok = false then
        ({ s with
            detector := det1
            pool_queue := s.pool_queue.tail
            logger := end_frame s.logger t false },
         [Event.errorEvt "Model inference failed"])
      else
        ({ s with
            detector := det1
            pool_queue := s.pool_queue.tail
            logger := end_frame s.logger t true }, [Event.mesh_update])

/-! ## Concrete fixtures for the scenario theorems -/

/-- Configuration with stride 1 (admit every frame), tracking on. -/
def cfg1 : Config :=
  { frame_skip := 1, enable_tracking := true, redetect_interval := 30, thread_pool_size := 2 }

/-- Configuration with stride 2. -/
def cfg2 : Config :=
  { frame_skip := 2, enable_tracking := true, redetect_interval := 30, thread_pool_size := 2 }

/-- Fresh server state right after `initialize_components`: counter zero,
fresh logger and detector, nothing submitted to the pool. -/
def s0 : ServerState :=
  { frame_counter := 0
    logger := PerformanceLogger.init 30 30 0
    detector := FaceDetectorState.init 1
    pool_queue := [] }

/-- Well-formed payload decoding to a 640 by 480 frame. -/
def goodPayload : FrameData := .dictWithImage (some ⟨640, 480⟩)

/-- Detector state in the middle of a tracking run: a stored box, tracking
active, five frames since the last full detection. -/
def s_track : FaceDetectorState :=
  { min_confidence := 1
    last_bbox := some ⟨10, 10, 20, 20⟩
    tracking_active := true
    frames_since_detection := 5 }

/-- Logger state after recording three successful samples into a fresh logger
of window size `W`: processing times [10, 20, 30] ms, inter-arrival times
[100, 100, 100] ms (wall-clock starts at 0; frame k starts at
k/10 - processing and ends at k/10 seconds). -/
def metricsScenario (W lg : Nat) : PerformanceLogger :=
  end_frame (start_frame
    (end_frame (start_frame
      (end_frame (start_frame (PerformanceLogger.init W lg 0) (9 / 100)) (1 / 10) true)
      (18 / 100)) (2 / 10) true)
    (27 / 100)) (3 / 10) true

/-! ## Helper lemmas -/

/-- A stored box that came out of the clamping step always passes the
`_track_face` bounds-validity check against a frame of the same dimensions. -/
theorem track_face_of_clamped (s : FaceDetectorState) (b : BBox) (w h : Nat)
    (hlb : s.last_bbox = some (clampBBox b w h)) :
    track_face s w h = some (clampBBox b w h) := by
  simp only [track_face, hlb, clampBBox]
  rw [if_neg]
  push_neg
  refine ⟨?_, ?_, ?_, ?_⟩ <;> omega

/-- A full-detection failure inside `detect_full` only flips
`tracking_active` off. -/
theorem detect_full_of_fail (s : FaceDetectorState) (w h : Nat)
    (raw : Option (BBox × ℚ)) (hfail : (detect_full s w h raw).1 = none) :
    detect_full s w h raw = (none, { s with tracking_active := false }) := by
  unfold detect_full at hfail ⊢
  cases hmt : detect_with_mtcnn s.min_confidence raw w h with
  | none => simp
  | some bb => simp [hmt] at hfail

/-- With tracking inactive, `detect_face` always falls through to full
detection. -/
theorem detect_face_of_inactive (s : FaceDetectorState) (w h : Nat)
    (ut : Bool) (raw : Option (BBox × ℚ)) (h1 : s.tracking_active = false) :
    detect_face s w h ut raw = detect_full s w h raw := by
  simp [detect_face, h1]

/-! ## Claims -/

/-- C3: starting from the empty tracking state, a successful detection moves
the detector to tracking with `frames_since_detection = 0`; each frame served
by tracked reuse increments `frames_since_detection` by exactly 1; and
`should_redetect R` is true iff `frames_since_detection >= R`, so it first
becomes true exactly when the counter reaches `R`. -/
theorem tracking_state_machine :
    (∀ (mc : ℚ) (w h : Nat) (ut : Bool) (b : BBox) (p : ℚ), mc ≤ p →
       detect_face (FaceDetectorState.init mc) w h ut (some (b, p)) =
         (some (clampBBox b w h),
          { min_confidence := mc
            last_bbox := some (clampBBox b w h)
            tracking_active := true
            frames_since_detection := 0 })) ∧
    (∀ (s : FaceDetectorState) (w h : Nat) (raw : Option (BBox × ℚ)) (bb : BBox),
       s.tracking_active = true → track_face s w h = some bb →
       detect_face s w h true raw =
         (some bb, { s with frames_since_detection := s.frames_since_detection + 1 })) ∧
    (∀ (s : FaceDetectorState) (R : Nat),
       should_redetect s R = true ↔ R ≤ s.frames_since_detection) := by
  refine ⟨?_, ?_, ?_⟩
  · intro mc w h ut b p hconf
    simp [detect_face, FaceDetectorState.init, detect_full, detect_with_mtcnn, hconf]
  · intro s w h raw bb hact htrack
    obtain ⟨b', hlb⟩ : ∃ b', s.last_bbox = some b' := by
      cases hlbe : s.last_bbox with
      | none => simp [track_face, hlbe] at htrack
      | some b' => exact ⟨b', rfl⟩
    simp [detect_face, hact, hlb, htrack]
  · intro s R
    simp [should_redetect]

/-- C3 witness: a successful detection at confidence 1 from the fresh
detector stores the clamped box and zeroes the staleness counter. -/
theorem tracking_state_machine_witness :
    detect_face (FaceDetectorState.init 0) 100 100 true (some (⟨10, 10, 20, 20⟩, 1)) =
      (some (clampBBox ⟨10, 10, 20, 20⟩ 100 100),
       { min_confidence := 0
         last_bbox := some (clampBBox ⟨10, 10, 20, 20⟩ 100 100)
         tracking_active := true
         frames_since_detection := 0 }) :=
  tracking_state_machine.1 0 100 100 true ⟨10, 10, 20, 20⟩ 1 (by norm_num)

/-- C4 counterexample: from a tracking state whose stored box no longer fits
the (shrunken) frame, a failed full detection leaves `last_bbox` stored and
`frames_since_detection` at 5 — the state is not cleared to empty. -/
theorem detect_failure_keeps_bbox_cx :
    (detect_face s_track 5 5 true none).1 = none ∧
    (detect_face s_track 5 5 true none).2.last_bbox = some ⟨10, 10, 20, 20⟩ ∧
    (detect_face s_track 5 5 true none).2.frames_since_detection = 5 :=
  ⟨rfl, rfl, rfl⟩

/-- C4 amended: whenever a full detection attempt fails, only
`tracking_active` is cleared; `last_bbox` and `frames_since_detection` are
left unchanged. Because reuse requires `tracking_active`, the next call
nevertheless performs full detection rather than reusing the stored box. -/
theorem detect_failure_clears_only_active (s : FaceDetectorState) (w h : Nat)
    (ut : Bool) (raw : Option (BBox × ℚ))
    (hfail : (detect_face s w h ut raw).1 = none) :
    (detect_face s w h ut raw).2 = { s with tracking_active := false } ∧
    ∀ (w' h' : Nat) (raw' : Option (BBox × ℚ)),
      detect_face ((detect_face s w h ut raw).2) w' h' ut raw' =
        detect_full ((detect_face s w h ut raw).2) w' h' raw' := by
  have hstate : detect_face s w h ut raw = (none, { s with tracking_active := false }) := by
    unfold detect_face at hfail ⊢
    by_cases hc : (ut && s.tracking_active && s.last_bbox.isSome) = true
    · rw [if_pos hc] at hfail ⊢
      cases htr : track_face s w h with
      | none =>
          rw [htr] at hfail
          exact detect_full_of_fail s w h raw hfail
      | some bb =>
          rw [htr] at hfail
          simp at hfail
    · rw [if_neg hc] at hfail ⊢
      exact detect_full_of_fail s w h raw hfail
  refine ⟨by rw [hstate], ?_⟩
  intro w' h' raw'
  exact detect_face_of_inactive _ w' h' ut raw' (by rw [hstate])

/-- C4 amended witness: the failed detection of the counterexample scenario
clears only the active flag. -/
theorem detect_failure_clears_only_active_witness :
    (detect_face s_track 5 5 true none).2 = { s_track with tracking_active := false } :=
  (detect_failure_clears_only_active s_track 5 5 true none rfl).1

/-- C5 counterexample: after one skipped/failed frame the window holds no
samples, yet `get_current_metrics` reports `dropped_frames = 1`, not 0. -/
theorem snapshot_empty_dropped_cx :
    (end_frame (start_frame (PerformanceLogger.init 30 30 0) 0) 1 false).processing_times = [] ∧
    (get_current_metrics (end_frame (start_frame (PerformanceLogger.init 30 30 0) 0) 1 false) 0 0).dropped_frames = 1 :=
  ⟨rfl, rfl⟩

/-- C5 amended: on a state whose window holds no samples, `get_current_metrics`
returns fps = 0 and all latency aggregates 0 without failing, while
`dropped_frames` reports the cumulative dropped counter as-is (which is 0 only
on a freshly constructed or reset logger). -/
theorem snapshot_empty_window (s : PerformanceLogger)
    (h : s.processing_times = []) (cpu mem : ℚ) :
    get_current_metrics s cpu mem =
      { fps := 0
        avg_latency := 0
        min_latency := 0
        max_latency := 0
        dropped_frames := s.dropped_frames
        cpu_percent := 0
        memory_percent := 0 } := by
  simp [get_current_metrics, h]

/-- C5 amended witness: the empty-window snapshot of a fresh logger. -/
theorem snapshot_empty_window_witness :
    get_current_metrics (PerformanceLogger.init 5 5 0) 50 60 =
      { fps := 0
        avg_latency := 0
        min_latency := 0
        max_latency := 0
        dropped_frames := (PerformanceLogger.init 5 5 0).dropped_frames
        cpu_percent := 0
        memory_percent := 0 } :=
  snapshot_empty_window (PerformanceLogger.init 5 5 0) rfl 50 60

/-- C10: calling `end_frame` with no pending `start_frame` is a complete
no-op — the whole logger state, in particular both sample windows, the frame
count and the dropped counter, is returned unchanged, for either success
value. -/
theorem end_frame_without_start_noop (s : PerformanceLogger)
    (h : s.start_time = none) (now : ℚ) (success : Bool) :
    end_frame s now success = s := by
  simp [end_frame, h]

/-- C10 witness: `end_frame` on the fresh logger (whose `start_time` is
unset) changes nothing. -/
theorem end_frame_without_start_noop_witness :
    end_frame (PerformanceLogger.init 30 30 0) 5 true = PerformanceLogger.init 30 30 0 :=
  end_frame_without_start_noop (PerformanceLogger.init 30 30 0) rfl 5 true

/-- C6: recording three successful samples with processing times
[10, 20, 30] ms and inter-arrival times [100, 100, 100] ms into an empty
window of any size at least 3 makes the snapshot report average latency 20,
minimum 10, maximum 30, and fps 10 (fps being 1000 over the mean
inter-arrival time). -/
theorem metrics_concrete_samples (W lg : Nat) (hW : 3 ≤ W) (cpu mem : ℚ) :
    (metricsScenario W lg).processing_times = [10, 20, 30] ∧
    (metricsScenario W lg).frame_times = [100, 100, 100] ∧
    (get_current_metrics (metricsScenario W lg) cpu mem).avg_latency = 20 ∧
    (get_current_metrics (metricsScenario W lg) cpu mem).min_latency = 10 ∧
    (get_current_metrics (metricsScenario W lg) cpu mem).max_latency = 30 ∧
    (get_current_metrics (metricsScenario W lg) cpu mem).fps = 10 := by
  have hW1 : (W < 1) = False := eq_false (by omega)
  have hW2 : (W < 2) = False := eq_false (by omega)
  have hW3 : (W < 3) = False := eq_false (by omega)
  set l1 := end_frame (start_frame (PerformanceLogger.init W lg 0) (9 / 100)) (1 / 10) true
    with hl1
  set l2 := end_frame (start_frame l1 (18 / 100)) (2 / 10) true with hl2
  have hsc : metricsScenario W lg = end_frame (start_frame l2 (27 / 100)) (3 / 10) true := rfl
  have h1 : l1.processing_times = [10] ∧ l1.frame_times = [100] ∧
      l1.last_frame_time = 1 / 10 ∧ l1.window_size = W := by
    simp only [hl1, end_frame, start_frame, PerformanceLogger.init, dequeAppend]
    norm_num [hW1]
  have h2 : l2.processing_times = [10, 20] ∧ l2.frame_times = [100, 100] ∧
      l2.last_frame_time = 2 / 10 ∧ l2.window_size = W := by
    simp only [hl2, end_frame, start_frame, dequeAppend, h1.1, h1.2.1, h1.2.2.1, h1.2.2.2]
    norm_num [hW2]
  have h3 : (metricsScenario W lg).processing_times = [10, 20, 30] ∧
      (metricsScenario W lg).frame_times = [100, 100, 100] := by
    simp only [hsc, end_frame, start_frame, dequeAppend, h2.1, h2.2.1, h2.2.2.1, h2.2.2.2]
    norm_num [hW3]
  refine ⟨h3.1, h3.2, ?_⟩
  simp only [get_current_metrics, h3.1, h3.2]
  norm_num [mean, list_min, list_max, round_to, round_half_even]

/-- C6 witness: the scenario at the source's window size 30. -/
theorem metrics_concrete_samples_witness :
    3 ≤ 30 ∧ (get_current_metrics (metricsScenario 30 30) 0 0).avg_latency = 20 :=
  ⟨by norm_num, (metrics_concrete_samples 30 30 (by norm_num) 0 0).2.2.1⟩

/-- C7: a bounding box produced by a successful full detection (clamped and
stored as the tracking box) is, on the next call against a frame of the same
dimensions, passed unchanged through the bounds-validity check and returned
by tracked reuse, with only the staleness counter incremented. -/
theorem detect_then_track_roundtrip (s : FaceDetectorState) (w h : Nat)
    (b : BBox) (p : ℚ) (hact : s.tracking_active = false)
    (hconf : s.min_confidence ≤ p) (raw2 : Option (BBox × ℚ)) :
    (detect_face s w h true (some (b, p))).1 = some (clampBBox b w h) ∧
    track_face (detect_face s w h true (some (b, p))).2 w h = some (clampBBox b w h) ∧
    detect_face (detect_face s w h true (some (b, p))).2 w h true raw2 =
      (some (clampBBox b w h),
       { (detect_face s w h true (some (b, p))).2 with frames_since_detection := 1 }) := by
  have h1 : detect_face s w h true (some (b, p)) =
      (some (clampBBox b w h),
       { s with
         last_bbox := some (clampBBox b w h)
         tracking_active := true
         frames_since_detection := 0 }) := by
    simp [detect_face, hact, detect_full, detect_with_mtcnn, hconf]
  have htr : track_face (detect_face s w h true (some (b, p))).2 w h =
      some (clampBBox b w h) := by
    rw [h1]
    exact track_face_of_clamped _ b w h rfl
  refine ⟨by rw [h1], htr, ?_⟩
  rw [h1] at htr ⊢
  simp [detect_face, htr]

/-- C7 witness: round trip of a concrete detection on a 100 by 100 frame. -/
theorem detect_then_track_roundtrip_witness :
    track_face (detect_face (FaceDetectorState.init 0) 100 100 true
        (some (⟨10, 10, 20, 20⟩, 1))).2 100 100 =
      some (clampBBox ⟨10, 10, 20, 20⟩ 100 100) :=
  (detect_then_track_roundtrip (FaceDetectorState.init 0) 100 100
    ⟨10, 10, 20, 20⟩ 1 rfl (by norm_num [FaceDetectorState.init]) none).2.1

/-- C8 counterexample: a raw detector box lying past the right edge of a
100 by 100 frame clamps to `x1 = x2 = 99`, a degenerate box — detection
output does not satisfy the strict invariant `x1 < x2`. -/
theorem clamp_degenerate_cx :
    detect_with_mtcnn 0 (some (⟨500, 10, 600, 50⟩, 1)) 100 100 =
      some ⟨99, 10, 99, 50⟩ ∧
    ¬ (BBox.mk 99 10 99 50).x1 < (BBox.mk 99 10 99 50).x2 := by
  constructor
  · norm_num [detect_with_mtcnn, clampBBox]
  · norm_num

/-- C8 amended: every box produced by detection after clamping has all four
coordinates within bounds — `0 ≤ x1, x2 < w` and `0 ≤ y1, y2 < h` for a frame
of positive dimensions — and clamping preserves the weak order of the raw
coordinates, but `x1 < x2` and `y1 < y2` are not guaranteed: a raw box
overlapping the frame edge can clamp to a degenerate box with `x1 = x2`. -/
theorem clamp_bounds (mc : ℚ) (b : BBox) (p : ℚ) (w h : Nat) (bb : BBox)
    (hw : 1 ≤ w) (hh : 1 ≤ h)
    (hdet : detect_with_mtcnn mc (some (b, p)) w h = some bb) :
    (0 ≤ bb.x1 ∧ bb.x1 < (w : Int) ∧ 0 ≤ bb.x2 ∧ bb.x2 < (w : Int) ∧
     0 ≤ bb.y1 ∧ bb.y1 < (h : Int) ∧ 0 ≤ bb.y2 ∧ bb.y2 < (h : Int)) ∧
    (b.x1 ≤ b.x2 → bb.x1 ≤ bb.x2) ∧ (b.y1 ≤ b.y2 → bb.y1 ≤ bb.y2) := by
  have hbb : bb = clampBBox b w h := by
    by_cases hc : mc ≤ p
    · simpa [detect_with_mtcnn, hc] using hdet.symm
    · simp [detect_with_mtcnn, hc] at hdet
  subst hbb
  simp only [clampBBox]
  refine ⟨⟨?_, ?_, ?_, ?_, ?_, ?_, ?_, ?_⟩, ?_, ?_⟩ <;> omega

/-- C8 amended witness: the clamped box of the counterexample scenario stays
within the 100 by 100 bounds and keeps the weak coordinate order. -/
theorem clamp_bounds_witness :
    0 ≤ (BBox.mk 99 10 99 50).x1 ∧ (BBox.mk 99 10 99 50).x1 < (100 : Int) ∧
    0 ≤ (BBox.mk 99 10 99 50).x2 ∧ (BBox.mk 99 10 99 50).x2 < (100 : Int) ∧
    0 ≤ (BBox.mk 99 10 99 50).y1 ∧ (BBox.mk 99 10 99 50).y1 < (100 : Int) ∧
    0 ≤ (BBox.mk 99 10 99 50).y2 ∧ (BBox.mk 99 10 99 50).y2 < (100 : Int) :=
  (clamp_bounds 0 ⟨500, 10, 600, 50⟩ 1 100 100 ⟨99, 10, 99, 50⟩
    (by norm_num) (by norm_num) (by norm_num [detect_with_mtcnn, clampBBox])).1

/-- C1 counterexample: with stride 1 and no completion in between, two
consecutive admitted frames leave two submissions pending in the pool for the
session — the second frame is queued, not dropped, so more than one frame is
in flight at once. -/
theorem two_frames_in_flight_cx :
    (handle_frame cfg1 (handle_frame cfg1 s0 goodPayload 0 0).1 goodPayload 0 0).1.pool_queue.length = 2 :=
  rfl

/-- C1 amended: the frame handler enforces no per-session in-flight limit and
no saturation rejection — every admitted frame that decodes is appended to the
executor's (unbounded) work queue regardless of how many earlier submissions
are still pending, with no event emitted; nothing is dropped at submission
time. (The module-level `processing_lock` is declared but never acquired.) -/
theorem submit_always_queues (cfg : Config) (s : ServerState) (d : FrameData)
    (f : FrameDims) (t1 t2 : ℚ)
    (hadm : frameSkipped cfg.frame_skip (s.frame_counter + 1) = false)
    (hdec : payload_frame d = some f) :
    (handle_frame cfg s d t1 t2).1.pool_queue = s.pool_queue ++ [f] ∧
    (handle_frame cfg s d t1 t2).2 = [] := by
  cases d with
  | dictWithImage o =>
      obtain rfl : o = some f := by simpa [payload_frame] using hdec
      simp [handle_frame, hadm]
  | bytesBuf o =>
      obtain rfl : o = some f := by simpa [payload_frame] using hdec
      simp [handle_frame, hadm]
  | dictNoImage => simp [payload_frame] at hdec
  | otherType => simp [payload_frame] at hdec

/-- C1 amended witness: the first admitted frame of the counterexample run is
queued onto the empty pool. -/
theorem submit_always_queues_witness :
    (handle_frame cfg1 s0 goodPayload 0 0).1.pool_queue = s0.pool_queue ++ [⟨640, 480⟩] :=
  (submit_always_queues cfg1 s0 goodPayload ⟨640, 480⟩ 0 0 (by decide) rfl).1

/-- C2: for a stride S at least 1, within any run of S consecutive frame
counter values exactly one frame passes the skip test; stride 1 admits every
frame; a skipped frame is recorded as a failed sample (the dropped counter
grows by one and nothing reaches the pool); and an admitted, decodable frame
is dispatched to processing. -/
theorem frame_admission_stride (S : Nat) (hS : 1 ≤ S) :
    (∀ c : Nat, ∃ j : Nat, j < S ∧ frameSkipped S (c + 1 + j) = false ∧
       ∀ j' : Nat, j' < S → frameSkipped S (c + 1 + j') = false → j' = j) ∧
    (∀ i : Nat, frameSkipped 1 i = false) ∧
    (∀ (cfg : Config) (s : ServerState) (d : FrameData) (t1 t2 : ℚ),
       cfg.frame_skip = S → frameSkipped S (s.frame_counter + 1) = true →
       (handle_frame cfg s d t1 t2).1.logger.dropped_frames = s.logger.dropped_frames + 1 ∧
       (handle_frame cfg s d t1 t2).1.pool_queue = s.pool_queue ∧
       (handle_frame cfg s d t1 t2).1.frame_counter = s.frame_counter + 1) ∧
    (∀ (cfg : Config) (s : ServerState) (d : FrameData) (f : FrameDims) (t1 t2 : ℚ),
       cfg.frame_skip = S → frameSkipped S (s.frame_counter + 1) = false →
       payload_frame d = some f →
       (handle_frame cfg s d t1 t2).1.pool_queue = s.pool_queue ++ [f]) := by
  refine ⟨?_, ?_, ?_, ?_⟩
  · intro c
    have hmod : ∀ x : Nat, frameSkipped S x = false ↔ x % S = 0 := by
      intro x; simp [frameSkipped]
    have hr : (c + 1) % S < S := Nat.mod_lt _ (by omega)
    have huniq : ∀ j1 j2 : Nat, j1 < S → j2 < S →
        (c + 1 + j1) % S = 0 → (c + 1 + j2) % S = 0 → j1 = j2 := by
      intro j1 j2 hj1 hj2 e1 e2
      have m : (c + 1 + j1) % S = (c + 1 + j2) % S := by rw [e1, e2]
      have m2 : j1 % S = j2 % S := Nat.ModEq.add_left_cancel' (c + 1) m
      rwa [Nat.mod_eq_of_lt hj1, Nat.mod_eq_of_lt hj2] at m2
    obtain ⟨q, hq⟩ : ∃ q, c + 1 = S * q + (c + 1) % S :=
      ⟨(c + 1) / S, (Nat.div_add_mod (c + 1) S).symm⟩
    by_cases h0 : (c + 1) % S = 0
    · exact ⟨0, by omega, by simpa [hmod] using h0,
        fun j' hj' he => huniq j' 0 hj' (by omega) ((hmod _).mp he) (by simpa using h0)⟩
    · have hhit : (c + 1 + (S - (c + 1) % S)) % S = 0 := by
        rw [show c + 1 + (S - (c + 1) % S) = S * q + S by omega,
          show S * q + S = S * (q + 1) by ring, Nat.mul_mod_right]
      exact ⟨S - (c + 1) % S, by omega, (hmod _).mpr hhit,
        fun j' hj' he => huniq j' _ hj' (by omega) ((hmod _).mp he) hhit⟩
  · intro i
    simp [frameSkipped, Nat.mod_one]
  · intro cfg s d t1 t2 hcfg hskip
    refine ⟨?_, ?_, ?_⟩ <;>
      cases d <;> simp [handle_frame, hcfg, hskip, end_frame, start_frame]
  · intro cfg s d f t1 t2 hcfg hadm hdec
    cases d with
    | dictWithImage o =>
        obtain rfl : o = some f := by simpa [payload_frame] using hdec
        simp [handle_frame, hcfg, hadm]
    | bytesBuf o =>
        obtain rfl : o = some f := by simpa [payload_frame] using hdec
        simp [handle_frame, hcfg, hadm]
    | dictNoImage => simp [payload_frame] at hdec
    | otherType => simp [payload_frame] at hdec

/-- C2 witness: with stride 2 and counter at 0 the next frame (counter 1) is
skipped and recorded as a dropped sample. -/
theorem frame_admission_stride_witness :
    (handle_frame cfg2 s0 goodPayload 0 0).1.logger.dropped_frames =
      s0.logger.dropped_frames + 1 :=
  ((frame_admission_stride 2 (by norm_num)).2.2.1 cfg2 s0 goodPayload 0 0 rfl (by decide)).1

/-- C9 counterexample: an admitted payload of the wrong type (neither a dict
with an image field nor a byte buffer) records a failed sample but emits no
outbound error event at all — the handler drops it silently. -/
theorem malformed_silent_drop_cx :
    (handle_frame cfg1 s0 FrameData.otherType 0 0).2 = [] ∧
    (handle_frame cfg1 s0 FrameData.otherType 0 0).1.logger.dropped_frames =
      s0.logger.dropped_frames + 1 :=
  ⟨rfl, rfl⟩

/-- C9 amended: every malformed admitted payload is handled without raising:
it records a failed metric sample and the handler returns normally; a payload
whose image data fails to decode additionally emits an outbound error event,
while a payload of the wrong shape (dict without an image field, or neither
dict nor bytes) is dropped silently with no outbound event. -/
theorem malformed_payload_handling (cfg : Config) (s : ServerState) (t1 t2 : ℚ)
    (hadm : frameSkipped cfg.frame_skip (s.frame_counter + 1) = false) :
    (handle_frame cfg s (.dictWithImage none) t1 t2 =
      ({ s with
          frame_counter := s.frame_counter + 1
          logger := end_frame (start_frame s.logger t1) t2 false },
       [Event.errorEvt "Failed to decode frame"])) ∧
    (handle_frame cfg s (.bytesBuf none) t1 t2 =
      ({ s with
          frame_counter := s.frame_counter + 1
          logger := end_frame (start_frame s.logger t1) t2 false },
       [Event.errorEvt "Failed to decode frame"])) ∧
    (handle_frame cfg s .dictNoImage t1 t2 =
      ({ s with
          frame_counter := s.frame_counter + 1
          logger := end_frame (start_frame s.logger t1) t2 false }, [])) ∧
    (handle_frame cfg s .otherType t1 t2 =
      ({ s with
          frame_counter := s.frame_counter + 1
          logger := end_frame (start_frame s.logger t1) t2 false }, [])) ∧
    (end_frame (start_frame s.logger t1) t2 false).dropped_frames =
      s.logger.dropped_frames + 1 := by
  refine ⟨?_, ?_, ?_, ?_, ?_⟩ <;>
    simp [handle_frame, hadm, end_frame, start_frame]

/-- C9 amended witness: an admitted undecodable base64 payload yields the
decode-failure error event and a failed sample. -/
theorem malformed_payload_handling_witness :
    handle_frame cfg1 s0 (.dictWithImage none) 0 0 =
      ({ s0 with
          frame_counter := s0.frame_counter + 1
          logger := end_frame (start_frame s0.logger 0) 0 false },
       [Event.errorEvt "Failed to decode frame"]) :=
  (malformed_payload_handling cfg1 s0 0 0 (by decide)).1

end DeepAvatar
